import Mathlib

/-!
Verification development for the stats-query component (`xray/stats.go`).

The component resolves a traffic-counter query given either a URL or an
outbound tag:

* `QueryStats server` dispatches on whether `server` contains the substring
  "://": URLs go to `queryStatsHTTP`, everything else is whitespace-trimmed
  and goes to `queryStatsInProcess`.
* `QueryStatsByTag tag` always takes the in-process path on the trimmed tag.
* `queryStatsInProcess` checks a chain of preconditions (non-empty tag, core
  server present and running, stats feature present and of manager type),
  looks up two counters named `outbound>>><tag>>>traffic>>>uplink` /
  `...>>>downlink`, treats an absent counter as value 0, and serializes the
  pair as a fixed-shape JSON object.
* `queryStatsHTTP` performs a GET and returns the raw body verbatim,
  propagating fetch/read failures.

External collaborators (the core server, the stats manager, the network) are
modelled as data supplied through an environment record: functions stand for
their accessor methods, `Option` stands for Go `nil`, and `Except` stands for
Go's `(value, error)` returns.
-/

namespace LibXray

/-- Go `unicode.IsSpace`: the Unicode White_Space code points
(U+0009–U+000D, U+0020, U+0085, U+00A0, U+1680, U+2000–U+200A, U+2028,
U+2029, U+202F, U+205F, U+3000). Used by `strings.TrimSpace`. -/
def isSpace (c : Char) : Bool :=
  let n := c.toNat
  (decide (0x9 ≤ n) && decide (n ≤ 0xD)) || decide (n = 0x20) ||
    decide (n = 0x85) || decide (n = 0xA0) || decide (n = 0x1680) ||
    (decide (0x2000 ≤ n) && decide (n ≤ 0x200A)) || decide (n = 0x2028) ||
    decide (n = 0x2029) || decide (n = 0x202F) || decide (n = 0x205F) ||
    decide (n = 0x3000)

/-- Go `strings.TrimSpace s`: drop leading and trailing white space. -/
def trimSpace (s : String) : String :=
  String.mk (((s.data.dropWhile isSpace).reverse.dropWhile isSpace).reverse)

/-- Go `strings.Contains s sub`: `sub` occurs as a contiguous substring of
`s`. Decidable list-infix test over the characters. -/
def containsSub (s sub : String) : Bool :=
  decide (sub.data <:+: s.data)

/-- Error values produced by the component. The first four correspond to the
four `fmt.Errorf` messages of `queryStatsInProcess` (the spec's
`InvalidArgument`, `NotRunning`, `FeatureUnavailable`, `TypeMismatch`);
`transportError` stands for an error propagated from `http.Get` or
`io.ReadAll` on the HTTP path (the spec's `TransportError`), carrying the
underlying cause. The `json.Marshal` error branch of the source is
unreachable for a struct of two `int64` fields, so serialization is modelled
as the total function `trafficJson` and no encoding-error value is needed. -/
inductive StatsError where
  | invalidArgument
  | notRunning
  | featureUnavailable
  | typeMismatch
  | transportError (cause : String)
deriving DecidableEq

/-- The exact `fmt.Errorf` message attached to each in-process error in the
source (the HTTP path returns the underlying cause unchanged). -/
def StatsError.message : StatsError → String
  | .invalidArgument => "stats tag is empty"
  | .notRunning => "core not running"
  | .featureUnavailable => "stats not enabled in config"
  | .typeMismatch => "stats manager type mismatch"
  | .transportError cause => cause

/-- A `corestats.Counter` handle: `Value()` returns the cumulative value. -/
structure Counter where
  value : Int
deriving DecidableEq

/-- A `corestats.Manager` handle: `GetCounter(name)` returns a counter or
Go `nil` (`none`). -/
structure Manager where
  getCounter : String → Option Counter

/-- A feature handle returned by `GetFeature(corestats.ManagerType())`:
either it satisfies the `corestats.Manager` interface (the type assertion
`m.(corestats.Manager)` succeeds) or it does not (`other`). -/
inductive Feature where
  | manager (m : Manager)
  | other

/-- The running core instance: `IsRunning()` and
`GetFeature(corestats.ManagerType())` (which may return `nil`). -/
structure CoreServer where
  isRunning : Bool
  getFeature : Option Feature

/-- An HTTP response as seen by `queryStatsHTTP`: a status code (never
inspected by the source) and the outcome of `io.ReadAll(resp.Body)`. -/
structure HttpResp where
  status : Nat
  readBody : Except String String

/-- The environment of a query: the package-level `coreServer` variable
(`nil` when the core was never initialized) and the network, as the outcome
`http.Get` would produce for each URL. -/
structure Env where
  coreServer : Option CoreServer
  httpGet : String → Except String HttpResp

/-- The uplink counter key built at stats.go:62:
`fmt.Sprintf("outbound>>>%s>>>traffic>>>uplink", tag)`. -/
def statsUpKey (tag : String) : String :=
  "outbound>>>" ++ tag ++ ">>>traffic>>>uplink"

/-- The downlink counter key built at stats.go:63:
`fmt.Sprintf("outbound>>>%s>>>traffic>>>downlink", tag)`. -/
def statsDownKey (tag : String) : String :=
  "outbound>>>" ++ tag ++ ">>>traffic>>>downlink"

/-- `json.Marshal` of the anonymous struct at stats.go:71–74: two `int64`
fields tagged `uplink` and `downlink`, in declaration order. -/
def trafficJson (uplink downlink : Int) : String :=
  "\x7b\"uplink\":" ++ toString uplink ++ ",\"downlink\":" ++
    toString downlink ++ "\x7d"

/-- `queryStatsHTTP` (stats.go:32–43): GET the URL, propagate a fetch error,
read the whole body, propagate a read error, otherwise return the body
string unchanged. The response status is never examined. -/
def queryStatsHTTP (env : Env) (server : String) : Except StatsError String :=
  match env.httpGet server with
  | .error err => .error (.transportError err)
  | .ok resp =>
    match resp.readBody with
    | .error err => .error (.transportError err)
    | .ok body => .ok body

/-- `queryStatsInProcess` (stats.go:47–80): reject an empty tag, then a nil
or non-running core, then a missing stats feature, then a feature that fails
the `corestats.Manager` type assertion; look up the uplink and downlink
counters, treating a nil counter as value 0, and serialize the pair. -/
def queryStatsInProcess (env : Env) (tag : String) : Except StatsError String :=
  if tag = "" then .error .invalidArgument
  else
    match env.coreServer with
    | none => .error .notRunning
    | some cs =>
      if !cs.isRunning then .error .notRunning
      else
        match cs.getFeature with
        | none => .error .featureUnavailable
        | some .other => .error .typeMismatch
        | some (.manager manager) =>
          .ok (trafficJson
            (match manager.getCounter (statsUpKey tag) with
             | none => 0
             | some upCounter => upCounter.value)
            (match manager.getCounter (statsDownKey tag) with
             | none => 0
             | some downCounter => downCounter.value))

/-- `QueryStats` (stats.go:17–24): identifiers containing "://" go to the
HTTP path; everything else is trimmed and treated as an outbound tag. -/
def QueryStats (env : Env) (server : String) : Except StatsError String :=
  if containsSub server "://" then queryStatsHTTP env server
  else queryStatsInProcess env (trimSpace server)

/-- `QueryStatsByTag` (stats.go:28–30): always the in-process path on the
trimmed tag. -/
def QueryStatsByTag (env : Env) (tag : String) : Except StatsError String :=
  queryStatsInProcess env (trimSpace tag)

/-!
Stateful refinement of the in-process path. For the idempotence / no-mutation
claim the collaborator calls (`IsRunning`, `GetFeature`, `GetCounter`,
`Value`) are modelled as state transformers over an abstract runtime state
`σ`, threaded in exactly the evaluation order of stats.go:47–80, so that
"the query mutates no state" is a provable statement rather than a modelling
artifact.
-/

/-- A `corestats.Counter` whose `Value()` call may observe and transform the
runtime state. -/
structure SCounter (σ : Type) where
  value : σ → Int × σ

/-- A `corestats.Manager` whose `GetCounter` call may observe and transform
the runtime state. -/
structure SManager (σ : Type) where
  getCounter : String → σ → Option (SCounter σ) × σ

/-- A stateful feature handle: satisfies the manager interface or not. -/
inductive SFeature (σ : Type) where
  | manager (m : SManager σ)
  | other

/-- A stateful core server: `IsRunning()` and `GetFeature(...)` as state
transformers. -/
structure SCoreServer (σ : Type) where
  isRunning : σ → Bool × σ
  getFeature : σ → Option (SFeature σ) × σ

/-- `queryStatsInProcess` with the collaborator calls threaded through an
explicit runtime state, in source evaluation order: `IsRunning` (skipped when
`coreServer` is nil, per Go's short-circuit `||`), `GetFeature`, `GetCounter`
for uplink then downlink (stats.go:62–63), then `Value()` on each non-nil
counter (stats.go:65–70). The two zero-initialized `if` statements of the
source are unfolded into the four nil/non-nil cases, keeping the order
uplink-value before downlink-value. -/
def queryStatsInProcessST {σ : Type} (coreServer : Option (SCoreServer σ))
    (tag : String) (s : σ) : Except StatsError String × σ :=
  if tag = "" then (.error .invalidArgument, s)
  else
    match coreServer with
    | none => (.error .notRunning, s)
    | some cs =>
      let run := cs.isRunning s
      if !run.1 then (.error .notRunning, run.2)
      else
        let feat := cs.getFeature run.2
        match feat.1 with
        | none => (.error .featureUnavailable, feat.2)
        | some .other => (.error .typeMismatch, feat.2)
        | some (.manager manager) =>
          let up := manager.getCounter (statsUpKey tag) feat.2
          let down := manager.getCounter (statsDownKey tag) up.2
          match up.1 with
          | none =>
            match down.1 with
            | none => (.ok (trafficJson 0 0), down.2)
            | some cDown =>
              let dv := cDown.value down.2
              (.ok (trafficJson 0 dv.1), dv.2)
          | some cUp =>
            let uv := cUp.value down.2
            match down.1 with
            | none => (.ok (trafficJson uv.1 0), uv.2)
            | some cDown =>
              let dv := cDown.value uv.2
              (.ok (trafficJson uv.1 dv.1), dv.2)

/-- The collaborator contract of the spec: `IsRunning`, `GetFeature`,
`GetCounter` and `Value` are plain accessors — they leave the runtime state
unchanged (counters are mutated elsewhere, never by a query). -/
def SReadOnly {σ : Type} (cs : SCoreServer σ) : Prop :=
  (∀ s, (cs.isRunning s).2 = s) ∧
  (∀ s, (cs.getFeature s).2 = s) ∧
  (∀ s m, (cs.getFeature s).1 = some (.manager m) →
    (∀ key u, (m.getCounter key u).2 = u) ∧
    (∀ key u c, (m.getCounter key u).1 = some c → ∀ v, (c.value v).2 = v))

/-!
Concrete environments used by the witness theorems.
-/

/-- A registry holding uplink 5 and downlink 7 for tag "proxy". -/
def mgrProxy : Manager :=
  ⟨fun key =>
    if key = "outbound>>>proxy>>>traffic>>>uplink" then some ⟨5⟩
    else if key = "outbound>>>proxy>>>traffic>>>downlink" then some ⟨7⟩
    else none⟩

/-- A registry holding only the uplink counter for tag "proxy". -/
def mgrUpOnly : Manager :=
  ⟨fun key =>
    if key = "outbound>>>proxy>>>traffic>>>uplink" then some ⟨5⟩ else none⟩

/-- An empty registry. -/
def mgrEmpty : Manager := ⟨fun _ => none⟩

/-- A registry that also holds junk under unrelated keys, but agrees with
`mgrProxy` on the two keys for tag "proxy". -/
def mgrNoisy : Manager :=
  ⟨fun key =>
    if key = "outbound>>>proxy>>>traffic>>>uplink" then some ⟨5⟩
    else if key = "outbound>>>proxy>>>traffic>>>downlink" then some ⟨7⟩
    else some ⟨999⟩⟩

/-- A network that always fails. -/
def noNet : String → Except String HttpResp := fun _ => .error "no network"

/-- Running core, stats feature present, "proxy" counters 5/7. -/
def envProxy : Env := ⟨some ⟨true, some (.manager mgrProxy)⟩, noNet⟩

/-- Running core whose registry also answers unrelated keys. -/
def envNoisy : Env := ⟨some ⟨true, some (.manager mgrNoisy)⟩, noNet⟩

/-- Running core, stats feature present, only the uplink counter. -/
def envUpOnly : Env := ⟨some ⟨true, some (.manager mgrUpOnly)⟩, noNet⟩

/-- Running core, stats feature present, empty registry. -/
def envEmptyReg : Env := ⟨some ⟨true, some (.manager mgrEmpty)⟩, noNet⟩

/-- Core never initialized (`coreServer == nil`). -/
def envNone : Env := ⟨none, noNet⟩

/-- Core initialized but not running. -/
def envStopped : Env := ⟨some ⟨false, some (.manager mgrProxy)⟩, noNet⟩

/-- Running core with the stats feature absent. -/
def envNoFeat : Env := ⟨some ⟨true, none⟩, noNet⟩

/-- Running core whose feature handle fails the manager type assertion. -/
def envBadFeat : Env := ⟨some ⟨true, some .other⟩, noNet⟩

/-- A network where the metrics URL answers 200 with body "foo=1". -/
def envHttpOk : Env :=
  ⟨none, fun url =>
    if url = "http://example.test/debug/vars" then .ok ⟨200, .ok "foo=1"⟩
    else .error "dns failure"⟩

/-- A network answering 404 with a readable body. -/
def envHttp404 : Env := ⟨none, fun _ => .ok ⟨404, .ok "not found"⟩⟩

/-- A network answering 500 with the same readable body as `envHttp404`. -/
def envHttp500 : Env := ⟨none, fun _ => .ok ⟨500, .ok "not found"⟩⟩

/-- A network where the GET itself fails. -/
def envHttpDown : Env := ⟨none, fun _ => .error "connection refused"⟩

/-- A network where the GET succeeds but the body read fails. -/
def envHttpBadBody : Env := ⟨none, fun _ => .ok ⟨200, .error "unexpected EOF"⟩⟩

/-- A stateful counter over `σ := Nat` whose value is constantly 5 and whose
read leaves the state alone. -/
def scUp : SCounter Nat := ⟨fun t => (5, t)⟩

/-- A stateful counter over `σ := Nat` whose value is constantly 7 and whose
read leaves the state alone. -/
def scDown : SCounter Nat := ⟨fun t => (7, t)⟩

/-- Stateful manager over `σ := Nat` with "proxy" counters 5/7, all
operations read-only. -/
def smgrProxy : SManager Nat :=
  ⟨fun key s =>
    (if key = "outbound>>>proxy>>>traffic>>>uplink" then some scUp
     else if key = "outbound>>>proxy>>>traffic>>>downlink" then some scDown
     else none, s)⟩

/-- Stateful running core over `σ := Nat` exposing `smgrProxy`. -/
def scsProxy : SCoreServer Nat :=
  ⟨fun s => (true, s), fun s => (some (.manager smgrProxy), s)⟩

/-- Claim C1: for every non-empty tag `t` (a tag: trimmed, not containing
"://"), if the runtime is running, the stats feature is present with the
manager interface, and the registry holds counters for both directions with
values `u` and `d` (`u, d ≥ 0`), then `Query t` succeeds and returns exactly
the string `\x7b"uplink":u,"downlink":d\x7d` — uplink field first, downlink
second, both serialized as integers. -/
theorem C1_query_exact_payload (env : Env) (t : String) (cs : CoreServer)
    (m : Manager) (u d : Int)
    (htag : t ≠ "") (hurl : containsSub t "://" = false)
    (htrim : trimSpace t = t)
    (hcs : env.coreServer = some cs) (hrun : cs.isRunning = true)
    (hfeat : cs.getFeature = some (.manager m))
    (hup : m.getCounter (statsUpKey t) = some ⟨u⟩)
    (hdown : m.getCounter (statsDownKey t) = some ⟨d⟩)
    (hu : 0 ≤ u) (hd : 0 ≤ d) :
    QueryStats env t =
      .ok ("\x7b\"uplink\":" ++ toString u ++ ",\"downlink\":" ++
        toString d ++ "\x7d") := by
  simp [QueryStats, queryStatsInProcess, trafficJson, hurl, htrim, htag, hcs,
    hrun, hfeat, hup, hdown]

/-- Witness for C1: tag "proxy" against a running core whose registry holds
uplink 5 and downlink 7 yields exactly the expected JSON text. -/
theorem C1_witness :
    QueryStats envProxy "proxy" = .ok "\x7b\"uplink\":5,\"downlink\":7\x7d" :=
  C1_query_exact_payload envProxy "proxy" ⟨true, some (.manager mgrProxy)⟩
    mgrProxy 5 7 (by decide) (by decide) (by decide) rfl rfl rfl (by decide)
    (by decide) (by decide) (by decide)

/-- Claim C2: the in-process path consults exactly two registry keys, built
as `outbound>>><tag>>>>traffic>>>uplink` and the downlink equivalent; for
tag "proxy" they are exactly `outbound>>>proxy>>>traffic>>>uplink` and
`outbound>>>proxy>>>traffic>>>downlink`. "Exactly two keys" is stated as
extensionality: two running environments whose managers agree on just those
two keys produce identical results, whatever else their registries hold. -/
theorem C2_counter_keys (tag : String) :
    statsUpKey tag = "outbound>>>" ++ tag ++ ">>>traffic>>>uplink" ∧
    statsDownKey tag = "outbound>>>" ++ tag ++ ">>>traffic>>>downlink" ∧
    statsUpKey "proxy" = "outbound>>>proxy>>>traffic>>>uplink" ∧
    statsDownKey "proxy" = "outbound>>>proxy>>>traffic>>>downlink" ∧
    (∀ (env₁ env₂ : Env) (cs₁ cs₂ : CoreServer) (m₁ m₂ : Manager),
      env₁.coreServer = some cs₁ → env₂.coreServer = some cs₂ →
      cs₁.isRunning = true → cs₂.isRunning = true →
      cs₁.getFeature = some (.manager m₁) →
      cs₂.getFeature = some (.manager m₂) →
      m₁.getCounter (statsUpKey tag) = m₂.getCounter (statsUpKey tag) →
      m₁.getCounter (statsDownKey tag) = m₂.getCounter (statsDownKey tag) →
      queryStatsInProcess env₁ tag = queryStatsInProcess env₂ tag) := by
  refine ⟨rfl, rfl, rfl, rfl, ?_⟩
  intro env₁ env₂ cs₁ cs₂ m₁ m₂ h₁ h₂ hr₁ hr₂ hf₁ hf₂ hupEq hdownEq
  by_cases htag : tag = ""
  · simp [queryStatsInProcess, htag]
  · simp [queryStatsInProcess, htag, h₁, h₂, hr₁, hr₂, hf₁, hf₂, hupEq,
      hdownEq]

/-- Witness for C2: a registry answering junk on every unrelated key gives
the same "proxy" result as one answering only the two expected keys, and the
two keys for "proxy" are the expected literals. -/
theorem C2_witness :
    queryStatsInProcess envProxy "proxy" = queryStatsInProcess envNoisy "proxy" ∧
    statsUpKey "proxy" = "outbound>>>proxy>>>traffic>>>uplink" ∧
    statsDownKey "proxy" = "outbound>>>proxy>>>traffic>>>downlink" :=
  ⟨(C2_counter_keys "proxy").2.2.2.2 envProxy envNoisy
      ⟨true, some (.manager mgrProxy)⟩ ⟨true, some (.manager mgrNoisy)⟩
      mgrProxy mgrNoisy rfl rfl rfl rfl rfl rfl (by decide) (by decide),
    (C2_counter_keys "proxy").2.2.1, (C2_counter_keys "proxy").2.2.2.1⟩

/-- Claim C3: on the in-process path with a running core and the manager
feature present, an absent counter is treated as value 0 rather than an
error: if exactly one counter is absent the corresponding field is 0, and if
both are absent the result is exactly `\x7b"uplink":0,"downlink":0\x7d`. -/
theorem C3_absent_counter_zero (env : Env) (tag : String) (cs : CoreServer)
    (m : Manager) (htag : tag ≠ "") (hcs : env.coreServer = some cs)
    (hrun : cs.isRunning = true)
    (hfeat : cs.getFeature = some (.manager m)) :
    (∀ c, m.getCounter (statsUpKey tag) = none →
      m.getCounter (statsDownKey tag) = some c →
      queryStatsInProcess env tag = .ok (trafficJson 0 c.value)) ∧
    (∀ c, m.getCounter (statsUpKey tag) = some c →
      m.getCounter (statsDownKey tag) = none →
      queryStatsInProcess env tag = .ok (trafficJson c.value 0)) ∧
    (m.getCounter (statsUpKey tag) = none →
      m.getCounter (statsDownKey tag) = none →
      queryStatsInProcess env tag = .ok "\x7b\"uplink\":0,\"downlink\":0\x7d") := by
  refine ⟨fun c hup hdown => ?_, fun c hup hdown => ?_, fun hup hdown => ?_⟩ <;>
    simp only [queryStatsInProcess, htag, hcs, hrun, hfeat, hup, hdown,
      if_neg, ite_false, Bool.not_true, Bool.false_eq_true, if_false] <;>
    rfl

/-- Witness for C3: a registry holding only the uplink counter yields
downlink 0, and an empty registry yields the all-zero payload with no
error. -/
theorem C3_witness :
    queryStatsInProcess envUpOnly "proxy" = .ok (trafficJson 5 0) ∧
    queryStatsInProcess envEmptyReg "proxy" =
      .ok "\x7b\"uplink\":0,\"downlink\":0\x7d" :=
  ⟨(C3_absent_counter_zero envUpOnly "proxy" ⟨true, some (.manager mgrUpOnly)⟩
      mgrUpOnly (by decide) rfl rfl rfl).2.1 ⟨5⟩ (by decide) (by decide),
    (C3_absent_counter_zero envEmptyReg "proxy" ⟨true, some (.manager mgrEmpty)⟩
      mgrEmpty (by decide) rfl rfl rfl).2.2 rfl rfl⟩

/-- Claim C4: the in-process precondition checks run in a fixed order, each
short-circuiting with its own error: empty tag after trimming fails with
`invalidArgument` (so `Query ""` and `Query "   "` do, whatever the
environment); a nil or non-running core fails with `notRunning`; an absent
stats feature fails with `featureUnavailable`; a feature failing the manager
type assertion fails with `typeMismatch`. Each earlier failure is
independent of everything the later checks would look at. -/
theorem C4_precondition_order (env : Env) (tag : String) :
    QueryStats env "" = .error .invalidArgument ∧
    QueryStats env "   " = .error .invalidArgument ∧
    (tag = "" → queryStatsInProcess env tag = .error .invalidArgument) ∧
    (tag ≠ "" → env.coreServer = none →
      queryStatsInProcess env tag = .error .notRunning) ∧
    (∀ cs, tag ≠ "" → env.coreServer = some cs → cs.isRunning = false →
      queryStatsInProcess env tag = .error .notRunning) ∧
    (∀ cs, tag ≠ "" → env.coreServer = some cs → cs.isRunning = true →
      cs.getFeature = none →
      queryStatsInProcess env tag = .error .featureUnavailable) ∧
    (∀ cs, tag ≠ "" → env.coreServer = some cs → cs.isRunning = true →
      cs.getFeature = some .other →
      queryStatsInProcess env tag = .error .typeMismatch) := by
  have h1 : containsSub "" "://" = false := by decide
  have h2 : containsSub "   " "://" = false := by decide
  have h3 : trimSpace "" = "" := by decide
  have h4 : trimSpace "   " = "" := by decide
  refine ⟨?_, ?_, fun h => ?_, fun h hcs => ?_, fun cs h hcs hrun => ?_,
    fun cs h hcs hrun hfeat => ?_, fun cs h hcs hrun hfeat => ?_⟩ <;>
    simp_all [QueryStats, queryStatsInProcess]

/-- Witness for C4: each of the four errors observed at a concrete input —
empty and all-blank identifiers, a nil core, a stopped core, a core without
the stats feature, and a core with a wrongly-typed feature handle. -/
theorem C4_witness :
    QueryStats envNone "" = .error .invalidArgument ∧
    QueryStats envNone "   " = .error .invalidArgument ∧
    queryStatsInProcess envNone "proxy" = .error .notRunning ∧
    queryStatsInProcess envStopped "proxy" = .error .notRunning ∧
    queryStatsInProcess envNoFeat "proxy" = .error .featureUnavailable ∧
    queryStatsInProcess envBadFeat "proxy" = .error .typeMismatch :=
  ⟨(C4_precondition_order envNone "proxy").1,
    (C4_precondition_order envNone "proxy").2.1,
    (C4_precondition_order envNone "proxy").2.2.2.1 (by decide) rfl,
    (C4_precondition_order envStopped "proxy").2.2.2.2.1
      ⟨false, some (.manager mgrProxy)⟩ (by decide) rfl rfl,
    (C4_precondition_order envNoFeat "proxy").2.2.2.2.2.1
      ⟨true, none⟩ (by decide) rfl rfl rfl,
    (C4_precondition_order envBadFeat "proxy").2.2.2.2.2.2
      ⟨true, some .other⟩ (by decide) rfl rfl rfl⟩

/-- Claim C5: `Query` dispatches solely on whether the identifier contains
"://": if it does, the HTTP path is taken (for every environment, running or
not, with no further URL validation); otherwise the identifier is trimmed
and the in-process path is taken. -/
theorem C5_dispatch (env : Env) (s : String) :
    (containsSub s "://" = true → QueryStats env s = queryStatsHTTP env s) ∧
    (containsSub s "://" = false →
      QueryStats env s = queryStatsInProcess env (trimSpace s)) := by
  constructor <;> intro h <;> simp [QueryStats, h]

/-- Witness for C5: against a nil (not running) core, a "://" identifier
still takes the HTTP path — even one that is not a well-formed URL — and a
bare tag takes the in-process path. -/
theorem C5_witness :
    QueryStats envNone "not a url ://" = queryStatsHTTP envNone "not a url ://" ∧
    QueryStats envNone "proxy" = queryStatsInProcess envNone (trimSpace "proxy") :=
  ⟨(C5_dispatch envNone "not a url ://").1 (by decide),
    (C5_dispatch envNone "proxy").2 (by decide)⟩

/-- Claim C6: for every tag (a non-empty-after-trim identifier without
"://"), when the core is nil or reports not running, `Query` fails with
`notRunning` — whatever the tag's value. -/
theorem C6_not_running (env : Env) (s : String) (htag : trimSpace s ≠ "")
    (hurl : containsSub s "://" = false)
    (hdown : env.coreServer = none ∨
      ∃ cs, env.coreServer = some cs ∧ cs.isRunning = false) :
    QueryStats env s = .error .notRunning := by
  rcases hdown with h | ⟨cs, hcs, hrun⟩ <;>
    simp [QueryStats, queryStatsInProcess, hurl, htag, *]

/-- Witness for C6: the `notRunning` error observed both for a nil core and
for an initialized-but-stopped core, at tag "proxy". -/
theorem C6_witness :
    QueryStats envNone "proxy" = .error .notRunning ∧
    QueryStats envStopped "proxy" = .error .notRunning :=
  ⟨C6_not_running envNone "proxy" (by decide) (by decide) (Or.inl rfl),
    C6_not_running envStopped "proxy" (by decide) (by decide)
      (Or.inr ⟨⟨false, some (.manager mgrProxy)⟩, rfl, rfl⟩)⟩

/-- Claim C7: on the HTTP path, a successful GET with a readable body is
returned verbatim as an opaque string; and the path fails with a
`transportError` carrying the underlying cause exactly when the fetch fails
or the body cannot be read. -/
theorem C7_http_body_verbatim (env : Env) (url : String) :
    (∀ resp body, env.httpGet url = .ok resp → resp.readBody = .ok body →
      queryStatsHTTP env url = .ok body) ∧
    (∀ e, env.httpGet url = .error e →
      queryStatsHTTP env url = .error (.transportError e)) ∧
    (∀ resp e, env.httpGet url = .ok resp → resp.readBody = .error e →
      queryStatsHTTP env url = .error (.transportError e)) ∧
    (∀ e, queryStatsHTTP env url = .error e →
      ∃ cause, e = .transportError cause ∧
        (env.httpGet url = .error cause ∨
          ∃ resp, env.httpGet url = .ok resp ∧
            resp.readBody = .error cause)) := by
  refine ⟨fun resp body h1 h2 => ?_, fun e h1 => ?_,
    fun resp e h1 h2 => ?_, fun e he => ?_⟩
  · simp [queryStatsHTTP, h1, h2]
  · simp [queryStatsHTTP, h1]
  · simp [queryStatsHTTP, h1, h2]
  · cases hg : env.httpGet url with
    | error cause =>
      have hq : queryStatsHTTP env url = .error (.transportError cause) := by
        simp [queryStatsHTTP, hg]
      rw [hq] at he
      injection he with h
      exact ⟨cause, h.symm, Or.inl rfl⟩
    | ok resp =>
      cases hb : resp.readBody with
      | error cause =>
        have hq : queryStatsHTTP env url = .error (.transportError cause) := by
          simp [queryStatsHTTP, hg, hb]
        rw [hq] at he
        injection he with h
        exact ⟨cause, h.symm, Or.inr ⟨resp, rfl, hb⟩⟩
      | ok body =>
        have hq : queryStatsHTTP env url = .ok body := by
          simp [queryStatsHTTP, hg, hb]
        rw [hq] at he
        exact absurd he (by simp)

/-- Witness for C7: a 200 response with body "foo=1" is returned exactly as
"foo=1"; a refused connection and an unreadable body each surface as a
transport error carrying the cause. -/
theorem C7_witness :
    queryStatsHTTP envHttpOk "http://example.test/debug/vars" = .ok "foo=1" ∧
    queryStatsHTTP envHttpDown "http://example.test/debug/vars" =
      .error (.transportError "connection refused") ∧
    queryStatsHTTP envHttpBadBody "http://example.test/debug/vars" =
      .error (.transportError "unexpected EOF") :=
  ⟨(C7_http_body_verbatim envHttpOk "http://example.test/debug/vars").1
      ⟨200, .ok "foo=1"⟩ "foo=1" rfl rfl,
    (C7_http_body_verbatim envHttpDown "http://example.test/debug/vars").2.1
      "connection refused" rfl,
    (C7_http_body_verbatim envHttpBadBody
        "http://example.test/debug/vars").2.2.1
      ⟨200, .error "unexpected EOF"⟩ "unexpected EOF" rfl rfl⟩

/-- The in-process query leaves the runtime state unchanged whenever the
collaborators honour the accessor contract: every branch of
`queryStatsInProcessST` threads the state through read-only calls only. -/
theorem queryStatsInProcessST_state_eq {σ : Type}
    (coreServer : Option (SCoreServer σ)) (tag : String) (s : σ)
    (hro : ∀ cs, coreServer = some cs → SReadOnly cs) :
    (queryStatsInProcessST coreServer tag s).2 = s := by
  unfold queryStatsInProcessST
  by_cases htag : tag = ""
  · simp [htag]
  · rw [if_neg htag]
    cases coreServer with
    | none => rfl
    | some cs =>
      obtain ⟨hrun, hfeat, hmgr⟩ := hro cs rfl
      simp only [hrun, hfeat]
      split
      · rfl
      · split
        · rfl
        · rfl
        · rename_i manager heqF
          obtain ⟨hgc, hval⟩ := hmgr s manager heqF
          simp only [hgc]
          split
          · split
            · rfl
            · rename_i cDown heqD
              simp only [hval (statsDownKey tag) s cDown heqD]
          · rename_i cUp heqU
            simp only [hval (statsUpKey tag) s cUp heqU, hgc]
            split
            · rfl
            · rename_i cDown heqD
              simp only [hval (statsDownKey tag) s cDown heqD]

/-- Claim C8: with collaborators honouring the accessor contract (reads
mutate nothing), the in-process query is read-only and idempotent: it
returns the state unchanged, and a second consecutive call yields the very
same payload. Determinism is inherent: the result is a function of the tag
and the runtime state. -/
theorem C8_idempotent_read_only {σ : Type}
    (coreServer : Option (SCoreServer σ)) (tag : String) (s : σ)
    (hro : ∀ cs, coreServer = some cs → SReadOnly cs) :
    (queryStatsInProcessST coreServer tag s).2 = s ∧
    (queryStatsInProcessST coreServer tag
        ((queryStatsInProcessST coreServer tag s).2)).1 =
      (queryStatsInProcessST coreServer tag s).1 := by
  have h := queryStatsInProcessST_state_eq coreServer tag s hro
  exact ⟨h, by rw [h]⟩

/-- The concrete stateful core `scsProxy` honours the accessor contract. -/
theorem scsProxy_read_only : SReadOnly scsProxy := by
  refine ⟨fun s => rfl, fun s => rfl, fun s m hm => ?_⟩
  have hm' : some (SFeature.manager smgrProxy) = some (.manager m) := hm
  injection hm' with h
  injection h with h2
  subst h2
  refine ⟨fun key u => rfl, fun key u c hc v => ?_⟩
  have hc' : (if key = "outbound>>>proxy>>>traffic>>>uplink" then some scUp
      else if key = "outbound>>>proxy>>>traffic>>>downlink" then some scDown
      else none) = some c := hc
  split at hc'
  · injection hc' with h3
    rw [← h3]
    rfl
  · split at hc'
    · injection hc' with h3
      rw [← h3]
      rfl
    · cases hc'

/-- Witness for C8: querying "proxy" against the concrete stateful core from
state 0 leaves the state at 0 and a second call returns the same payload. -/
theorem C8_witness :
    (queryStatsInProcessST (some scsProxy) "proxy" 0).2 = 0 ∧
    (queryStatsInProcessST (some scsProxy) "proxy"
        ((queryStatsInProcessST (some scsProxy) "proxy" 0).2)).1 =
      (queryStatsInProcessST (some scsProxy) "proxy" 0).1 :=
  C8_idempotent_read_only (some scsProxy) "proxy" 0
    (fun cs h => by injection h with h; exact h ▸ scsProxy_read_only)

/-- Claim C9: `QueryStatsByTag` behaves exactly as the in-process path on
the trimmed input; hence it agrees with `QueryStats` on every identifier
without "://", while on identifiers containing "://" it still takes the
in-process path (treating the whole string as a tag) instead of fetching. -/
theorem C9_by_tag_refines (env : Env) (s : String) :
    QueryStatsByTag env s = queryStatsInProcess env (trimSpace s) ∧
    (containsSub s "://" = false →
      QueryStatsByTag env s = QueryStats env s) := by
  refine ⟨rfl, fun h => ?_⟩
  simp [QueryStatsByTag, QueryStats, h]

/-- Witness for C9: on "proxy" the two public entry points agree, and on a
"://" identifier `QueryStatsByTag` still evaluates the in-process path. -/
theorem C9_witness :
    QueryStatsByTag envProxy "proxy" = QueryStats envProxy "proxy" ∧
    QueryStatsByTag envProxy "http://proxy" =
      queryStatsInProcess envProxy (trimSpace "http://proxy") :=
  ⟨(C9_by_tag_refines envProxy "proxy").2 (by decide),
    (C9_by_tag_refines envProxy "http://proxy").1⟩

/-- Claim C10: the HTTP path ignores the response status code entirely: any
received response with a readable body — 404 and 500 included — is returned
as a success, and two responses with the same body outcome yield the same
result whatever their statuses. -/
theorem C10_status_ignored (env : Env) (url : String) (resp : HttpResp)
    (body : String) (hresp : env.httpGet url = .ok resp)
    (hbody : resp.readBody = .ok body) :
    queryStatsHTTP env url = .ok body ∧
    (∀ (env₂ : Env) (resp₂ : HttpResp), env₂.httpGet url = .ok resp₂ →
      resp₂.readBody = resp.readBody →
      queryStatsHTTP env₂ url = queryStatsHTTP env url) := by
  refine ⟨by simp [queryStatsHTTP, hresp, hbody], fun env₂ resp₂ h₂ hb => ?_⟩
  simp [queryStatsHTTP, hresp, h₂, hb, hbody]

/-- Witness for C10: a 404 response body is returned as a success, and a 500
response with the same body gives the identical result. -/
theorem C10_witness :
    queryStatsHTTP envHttp404 "http://h/metrics" = .ok "not found" ∧
    queryStatsHTTP envHttp500 "http://h/metrics" =
      queryStatsHTTP envHttp404 "http://h/metrics" :=
  have h := C10_status_ignored envHttp404 "http://h/metrics"
    ⟨404, .ok "not found"⟩ "not found" rfl rfl
  ⟨h.1, h.2 envHttp500 ⟨500, .ok "not found"⟩ rfl rfl⟩

end LibXray
